import Mathlib

/-!
Shallow embedding of the stylospectrum/browser scripts.

The repository has two source files:

1. src/server/comment.js, an input validator: a keydown handler named
   lengthCheck reads the value attribute of the element the event fired
   on and, when its length exceeds 10, writes the fixed warning text
   into the innerHTML of the first strong element of the page.

2. src/unnamed/part_000, a visibility toggle in two variants (an
   unqualified one and a window-qualified one): fade_in and fade_out
   each schedule a requestAnimationFrame callback that assigns a style
   string setting the opacity of the first div of the page.

The embedding below models DOM state explicitly: the value attribute of
an element is an Option String (none when the attribute is absent, as
getAttribute then returns null in the source), the feedback element is
its content string, the toggle target is its style string, and the
requestAnimationFrame queue is the list of pending style writes, run in
order by one display-refresh flush.  A handler that would raise a
runtime type error in the source is modelled in Except.
-/

namespace Browser

/-- The fixed warning text written by lengthCheck in src/server/comment.js. -/
def warningText : String := "Comment too long!"

/-- Embeds lengthCheck from src/server/comment.js.  The handler reads
the value attribute of the element it fired on; when the attribute is
absent the source reads null and evaluating value.length raises a
TypeError, so the model returns an error.  Otherwise, when the length
exceeds 10, it writes the warning text into the feedback content, and
performs no write otherwise. -/
def lengthCheck (attrValue : Option String) (content : String) : Except String String :=
  match attrValue with
  | none => Except.error "TypeError"
  | some value =>
    if value.length > 10 then Except.ok warningText else Except.ok content

/-- The keydown path of lengthCheck when a value string is present:
write the warning when the length exceeds 10, leave the content alone
otherwise. -/
def handleKeydown (value : String) (content : String) : String :=
  if value.length > 10 then warningText else content

/-- Runs a sequence of keystroke events, each carrying the value string
of the watched element it fired on, against the feedback content. -/
def runEvents (events : List String) (content : String) : String :=
  events.foldl (fun c v => handleKeydown v c) content

/-- The whole mutable page state touched by the scripts: the value
attribute of the watched element, the content of the feedback element,
and the style of the toggle target. -/
structure PageState where
  attrValue : Option String
  strongContent : String
  divStyle : String

/-- lengthCheck acting on the whole page state: the source handler
assigns only strong.innerHTML and reads only the value attribute. -/
def lengthCheckPage (st : PageState) : Except String PageState :=
  match st.attrValue with
  | none => Except.error "TypeError"
  | some value =>
    if value.length > 10 then Except.ok { st with strongContent := warningText }
    else Except.ok st

/-- State of the visibility toggle: the style string of the div and the
queue of pending requestAnimationFrame callbacks, each modelled by the
style string it assigns. -/
structure FadeState where
  style : String
  rafQueue : List String

/-- fade_in of the first variant in src/unnamed/part_000: schedules a
callback that assigns the style string opacity colon 0.999. -/
def fade_in (s : FadeState) : FadeState :=
  { s with rafQueue := s.rafQueue ++ ["opacity:0.999"] }

/-- fade_out of the first variant: schedules a callback that assigns
the style string opacity colon 0.1. -/
def fade_out (s : FadeState) : FadeState :=
  { s with rafQueue := s.rafQueue ++ ["opacity:0.1"] }

/-- window.fade_in of the second, window-qualified variant: same shape,
but the assigned style string has a space after the colon. -/
def fade_in_w (s : FadeState) : FadeState :=
  { s with rafQueue := s.rafQueue ++ ["opacity: 0.999"] }

/-- window.fade_out of the second variant. -/
def fade_out_w (s : FadeState) : FadeState :=
  { s with rafQueue := s.rafQueue ++ ["opacity: 0.1"] }

/-- One display-refresh cycle: every pending callback runs in order,
each assigning its style string to the div, and the queue empties. -/
def flushFrame (s : FadeState) : FadeState :=
  { style := s.rafQueue.foldl (fun _ v => v) s.style, rafQueue := [] }

/-- A call to one of the two toggle entry points. -/
inductive Call where
  | fadeIn : Call
  | fadeOut : Call

/-- Dispatches a call in the first variant. -/
def applyCall (s : FadeState) : Call → FadeState
  | Call.fadeIn => fade_in s
  | Call.fadeOut => fade_out s

/-- Dispatches a call in the second variant. -/
def applyCallW (s : FadeState) : Call → FadeState
  | Call.fadeIn => fade_in_w s
  | Call.fadeOut => fade_out_w s

/-- Runs a sequence of toggle calls in the first variant. -/
def applyCalls (calls : List Call) (s : FadeState) : FadeState :=
  calls.foldl applyCall s

/-- Runs a sequence of toggle calls in the second variant. -/
def applyCallsW (calls : List Call) (s : FadeState) : FadeState :=
  calls.foldl applyCallW s

/-- The style string a call schedules in the first variant. -/
def callStyle : Call → String
  | Call.fadeIn => "opacity:0.999"
  | Call.fadeOut => "opacity:0.1"

/-- The style string a call schedules in the second variant. -/
def callStyleW : Call → String
  | Call.fadeIn => "opacity: 0.999"
  | Call.fadeOut => "opacity: 0.1"

/-- Drops an expected literal head from a character list, or fails. -/
def chopLit : List Char → List Char → Option (List Char)
  | [], cs => some cs
  | _ :: _, [] => none
  | p :: ps, c :: cs => if p = c then chopLit ps cs else none

/-- Removes leading and trailing spaces from a character list. -/
def trimSpaces (cs : List Char) : List Char :=
  ((cs.dropWhile (fun c => c = ' ')).reverse.dropWhile (fun c => c = ' ')).reverse

/-- Accumulates decimal digits into a natural number, failing on a
non-digit character. -/
def digitsToNatAux (acc : Nat) : List Char → Option Nat
  | [] => some acc
  | c :: cs => if c.isDigit then digitsToNatAux (acc * 10 + (c.toNat - 48)) cs else none

/-- Reads a nonempty run of decimal digits as a natural number. -/
def digitsToNat (cs : List Char) : Option Nat :=
  match cs with
  | [] => none
  | _ => digitsToNatAux 0 cs

/-- Splits a character list at the first dot, if any. -/
def splitDot : List Char → List Char × Option (List Char)
  | [] => ([], none)
  | c :: cs =>
    if c = '.' then ([], some cs)
    else
      let r := splitDot cs
      (c :: r.1, r.2)

/-- Parses a decimal literal into a mantissa and the number of
fractional digits, so that the denoted value is mantissa over ten to
the scale. -/
def parseDec (cs : List Char) : Option (Nat × Nat) :=
  match splitDot cs with
  | (i, none) => (digitsToNat i).map (fun n => (n, 0))
  | (i, some f) =>
    match digitsToNat i, digitsToNat f with
    | some a, some b => some (a * 10 ^ f.length + b, f.length)
    | _, _ => none

/-- Reads the opacity declaration out of a style string of the form
written by the toggle scripts: the literal opacity colon head, optional
spaces, then a decimal literal. -/
def opacityRaw (style : String) : Option (Nat × Nat) :=
  match chopLit "opacity:".data style.data with
  | none => none
  | some rest => parseDec (trimSpaces rest)

/-- The opacity a style string sets, as a rational number. -/
def opacityVal (style : String) : Option ℚ :=
  (opacityRaw style).map (fun p => (p.1 : ℚ) / 10 ^ p.2)

/-- A document, for the initialization code: the innerHTML of each
strong element, the value attribute of each input, the style of each
div, and the number of buttons. -/
structure Document where
  strongs : List String
  inputs : List (Option String)
  divs : List String
  buttons : Nat

/-- The state comment.js initialization builds: the selected feedback
element, if any, and the inputs subscribed to keydown. -/
structure ValidatorInit where
  strong : Option String
  listeners : List (Option String)

/-- Embeds the initialization of src/server/comment.js: strong is the
first element returned by querySelectorAll, which is undefined (none)
when no strong element exists, and every input gets the keydown
listener.  The source raises no error and reports nothing when the
element is missing. -/
def commentInit (doc : Document) : ValidatorInit :=
  { strong := doc.strongs.head?, listeners := doc.inputs }

/-- Embeds the initialization of src/unnamed/part_000: div is the first
div if any (undefined otherwise, with no error), and the two
addEventListener calls on buttons zero and one raise a TypeError when
the button is missing. -/
def fadeInit (doc : Document) : Except String (Option String) :=
  if doc.buttons = 0 then Except.error "TypeError"
  else if doc.buttons = 1 then Except.error "TypeError"
  else Except.ok doc.divs.head?

end Browser

namespace Browser

/-- Sanity link: on a present value the Option level handler and the
plain keydown step agree. -/
theorem lengthCheck_some (v content : String) :
    lengthCheck (some v) content = Except.ok (handleKeydown v content) := by
  unfold lengthCheck handleKeydown
  by_cases h : v.length > 10 <;> simp [h]

/-- Helper: running the queue in order leaves the last pending write. -/
theorem foldl_last_concat (q : List String) (init v : String) :
    List.foldl (fun _ w => w) init (q ++ [v]) = v := by
  induction q generalizing init with
  | nil => rfl
  | cons a q ih => exact ih a

/-- Helper: a sequence of toggle calls never touches the style. -/
theorem applyCalls_style (calls : List Call) (s : FadeState) :
    (applyCalls calls s).style = s.style := by
  induction calls generalizing s with
  | nil => rfl
  | cons c cs ih =>
    cases c <;> exact ih _

/-- Helper: a sequence of toggle calls appends one pending write per
call, in order, in the first variant. -/
theorem applyCalls_queue (calls : List Call) (s : FadeState) :
    (applyCalls calls s).rafQueue = s.rafQueue ++ calls.map callStyle := by
  induction calls generalizing s with
  | nil => simp [applyCalls]
  | cons c cs ih =>
    cases c <;>
      simp [applyCalls, applyCall, fade_in, fade_out, callStyle, List.foldl_cons] <;>
      rw [show (List.foldl applyCall _ cs) = applyCalls cs _ from rfl, ih] <;>
      simp

/-- Helper: same for the second, window-qualified variant. -/
theorem applyCallsW_queue (calls : List Call) (s : FadeState) :
    (applyCallsW calls s).rafQueue = s.rafQueue ++ calls.map callStyleW := by
  induction calls generalizing s with
  | nil => simp [applyCallsW]
  | cons c cs ih =>
    cases c <;>
      simp [applyCallsW, applyCallW, fade_in_w, fade_out_w, callStyleW, List.foldl_cons] <;>
      rw [show (List.foldl applyCallW _ cs) = applyCallsW cs _ from rfl, ih] <;>
      simp

/-- Helper: concrete opacity of the first variant fade in string. -/
theorem opacityVal_in : opacityVal "opacity:0.999" = some ((999 : ℚ)/1000) := by
  have h : opacityRaw "opacity:0.999" = some (999, 3) := by decide
  simp only [opacityVal, h, Option.map_some']
  norm_num

/-- Helper: concrete opacity of the first variant fade out string. -/
theorem opacityVal_out : opacityVal "opacity:0.1" = some ((1 : ℚ)/10) := by
  have h : opacityRaw "opacity:0.1" = some (1, 1) := by decide
  simp only [opacityVal, h, Option.map_some']
  norm_num

/-- Helper: concrete opacity of the second variant fade in string. -/
theorem opacityVal_in_w : opacityVal "opacity: 0.999" = some ((999 : ℚ)/1000) := by
  have h : opacityRaw "opacity: 0.999" = some (999, 3) := by decide
  simp only [opacityVal, h, Option.map_some']
  norm_num

/-- Helper: concrete opacity of the second variant fade out string. -/
theorem opacityVal_out_w : opacityVal "opacity: 0.1" = some ((1 : ℚ)/10) := by
  have h : opacityRaw "opacity: 0.1" = some (1, 1) := by decide
  simp only [opacityVal, h, Option.map_some']
  norm_num

/-- C1: for every value string of length strictly greater than 10, the
keydown handler sets the feedback content to exactly the fixed warning
text. -/
theorem lengthCheck_warns (S content : String) (h : S.length > 10) :
    lengthCheck (some S) content = Except.ok warningText := by
  simp [lengthCheck, h]

/-- Witness for C1 at the value of length 11 from the spec scenario. -/
theorem lengthCheck_warns_witness :
    ("helloworld!".length > 10) ∧
      lengthCheck (some "helloworld!") "" = Except.ok warningText :=
  ⟨by decide, lengthCheck_warns "helloworld!" "" (by decide)⟩

/-- C2: for every value string of length at most 10 and every prior
feedback content, the keydown handler leaves the content unchanged, in
particular it never clears a previously written warning. -/
theorem lengthCheck_no_write (S content : String) (h : S.length ≤ 10) :
    lengthCheck (some S) content = Except.ok content := by
  have h2 : ¬ (S.length > 10) := by omega
  simp [lengthCheck, h2]

/-- Witness for C2 at the short value from the spec scenario, starting
from a previously written warning, which stays. -/
theorem lengthCheck_no_write_witness :
    ("hello".length ≤ 10) ∧
      lengthCheck (some "hello") warningText = Except.ok warningText :=
  ⟨by decide, lengthCheck_no_write "hello" warningText (by decide)⟩

/-- C3 counterexample: the claim says an absent value attribute is
treated as length 0 and the handler completes without error and writes
nothing; on the code, the handler with an absent attribute does not
return the unchanged content, because reading length of null raises. -/
theorem lengthCheck_none_counterexample :
    ¬ (lengthCheck none "" = Except.ok "") := by
  intro h
  simp [lengthCheck] at h

/-- C3 amended: when the value attribute is absent (getAttribute
returns null), the handler raises a TypeError instead of completing;
it still performs no write to the feedback element. -/
theorem lengthCheck_none_raises (content : String) :
    lengthCheck none content = Except.error "TypeError" := rfl

/-- C4: from any starting toggle state, calling fade in and flushing
one display-refresh cycle leaves opacity 0.999, and calling fade out
and flushing one cycle leaves opacity 0.1. -/
theorem fade_flush_opacity (s : FadeState) :
    opacityVal (flushFrame (fade_in s)).style = some ((999 : ℚ)/1000) ∧
      opacityVal (flushFrame (fade_out s)).style = some ((1 : ℚ)/10) := by
  constructor
  · rw [show (flushFrame (fade_in s)).style =
        List.foldl (fun _ w => w) s.style (s.rafQueue ++ ["opacity:0.999"]) from rfl,
      foldl_last_concat]
    exact opacityVal_in
  · rw [show (flushFrame (fade_out s)).style =
        List.foldl (fun _ w => w) s.style (s.rafQueue ++ ["opacity:0.1"]) from rfl,
      foldl_last_concat]
    exact opacityVal_out

/-- C5: neither fade in nor fade out mutates the style synchronously;
immediately after either call the style of the toggle target is what it
was, and each call only appends a pending display-refresh callback. -/
theorem fade_no_sync_mutation (s : FadeState) :
    (fade_in s).style = s.style ∧ (fade_out s).style = s.style ∧
      (fade_in s).rafQueue = s.rafQueue ++ ["opacity:0.999"] ∧
      (fade_out s).rafQueue = s.rafQueue ++ ["opacity:0.1"] :=
  ⟨rfl, rfl, rfl, rfl⟩

/-- C6: every call in a sequence made before one flush schedules its
own callback (the queue grows by exactly the number of calls), and
after the flush the opacity is the one written by the last call, 0.999
for fade in and 0.1 for fade out. -/
theorem rapid_calls_last_wins (calls : List Call) (s : FadeState) :
    (applyCalls calls s).rafQueue.length = s.rafQueue.length + calls.length ∧
      opacityVal (flushFrame (applyCalls calls s)).style =
        (match calls.getLast? with
         | some Call.fadeIn => some ((999 : ℚ)/1000)
         | some Call.fadeOut => some ((1 : ℚ)/10)
         | none => opacityVal (flushFrame s).style) := by
  constructor
  · rw [applyCalls_queue]
    simp
  · rcases calls.eq_nil_or_concat' with h | ⟨r, a, h⟩
    · subst h
      rfl
    · subst h
      have hq : (flushFrame (applyCalls (r ++ [a]) s)).style = callStyle a := by
        rw [show (flushFrame (applyCalls (r ++ [a]) s)).style =
            List.foldl (fun _ w => w) (applyCalls (r ++ [a]) s).style
              (applyCalls (r ++ [a]) s).rafQueue from rfl,
          applyCalls_queue]
        rw [List.map_append, ← List.append_assoc]
        exact foldl_last_concat _ _ _
      rw [hq, List.getLast?_concat]
      cases a
      · exact opacityVal_in
      · exact opacityVal_out

/-- C7 evaluation: with no strong element and no div in the document,
both initializations complete silently instead of reporting a
configuration error; comment.js leaves the feedback reference undefined
while still subscribing every input, and part_000 leaves the div
reference undefined as long as the two buttons exist. -/
theorem init_missing_elements_silent :
    commentInit { strongs := [], inputs := [some "hello"], divs := [], buttons := 2 } =
        { strong := none, listeners := [some "hello"] } ∧
      fadeInit { strongs := [], inputs := [], divs := [], buttons := 2 } =
        Except.ok none :=
  ⟨rfl, rfl⟩

/-- C8 counterexample: the feedback content does not reflect only the
most recent keystroke event; a long value followed by a short one
leaves the earlier warning visible, while the short event alone leaves
the content empty. -/
theorem feedback_not_last_event_only :
    ¬ (runEvents ["helloworld!", "hello"] "" = runEvents ["hello"] "") := by
  decide

/-- C8 amended: the feedback content reflects the most recent write,
and every write writes the same fixed warning, so after any event
sequence the content is the warning text when some event value exceeded
length 10 and the prior content otherwise; an earlier warning stays
visible through later short events. -/
theorem runEvents_characterization (events : List String) (content : String) :
    runEvents events content =
      (if events.any (fun v => decide (v.length > 10)) then warningText else content) := by
  induction events generalizing content with
  | nil => rfl
  | cons v vs ih =>
    rw [show runEvents (v :: vs) content = runEvents vs (handleKeydown v content) from rfl, ih]
    by_cases h : v.length > 10 <;> simp [handleKeydown, h]

/-- C9: the two fade script variants are behaviorally equivalent: after
any sequence of calls and one flush, both leave the toggle target with
the same opacity value, 0.999 when the last call was fade in and 0.1
when it was fade out. -/
theorem variants_same_opacity (calls : List Call) (s : FadeState) :
    opacityVal (flushFrame (applyCalls calls s)).style =
        opacityVal (flushFrame (applyCallsW calls s)).style ∧
      opacityVal (flushFrame (applyCalls calls s)).style =
        (match calls.getLast? with
         | some Call.fadeIn => some ((999 : ℚ)/1000)
         | some Call.fadeOut => some ((1 : ℚ)/10)
         | none => opacityVal (flushFrame s).style) := by
  rcases calls.eq_nil_or_concat' with h | ⟨r, a, h⟩
  · subst h
    exact ⟨rfl, rfl⟩
  · subst h
    have hq : (flushFrame (applyCalls (r ++ [a]) s)).style = callStyle a := by
      rw [show (flushFrame (applyCalls (r ++ [a]) s)).style =
          List.foldl (fun _ w => w) (applyCalls (r ++ [a]) s).style
            (applyCalls (r ++ [a]) s).rafQueue from rfl,
        applyCalls_queue]
      rw [List.map_append, ← List.append_assoc]
      exact foldl_last_concat _ _ _
    have hqw : (flushFrame (applyCallsW (r ++ [a]) s)).style = callStyleW a := by
      rw [show (flushFrame (applyCallsW (r ++ [a]) s)).style =
          List.foldl (fun _ w => w) (applyCallsW (r ++ [a]) s).style
            (applyCallsW (r ++ [a]) s).rafQueue from rfl,
        applyCallsW_queue]
      rw [List.map_append, ← List.append_assoc]
      exact foldl_last_concat _ _ _
    rw [hq, hqw, List.getLast?_concat]
    cases a
    · exact ⟨opacityVal_in.trans opacityVal_in_w.symm, opacityVal_in⟩
    · exact ⟨opacityVal_out.trans opacityVal_out_w.symm, opacityVal_out⟩

/-- C10: on any present value string the keydown handler mutates at
most the feedback content; the value attribute of the watched element
and the style of the toggle target are unchanged. -/
theorem lengthCheck_frame (S c d : String) :
    ∃ st2, lengthCheckPage { attrValue := some S, strongContent := c, divStyle := d } =
        Except.ok st2 ∧ st2.attrValue = some S ∧ st2.divStyle = d := by
  by_cases h : S.length > 10
  · refine ⟨{ attrValue := some S, strongContent := warningText, divStyle := d }, ?_, rfl, rfl⟩
    simp [lengthCheckPage, h]
  · refine ⟨{ attrValue := some S, strongContent := c, divStyle := d }, ?_, rfl, rfl⟩
    simp [lengthCheckPage, h]

end Browser
